import Mathlib

/-!
# container.c: a verification development

A shallow embedding of `src/container.c` (the host driver `main`, the child
entry point `container_exec` and `usage`) and theorems about it.

Modelling conventions.

* A C string is the list of its bytes, terminator excluded (`Str`).  A `char`
  array is the list of all its bytes (`List Nat`); reading it with `%s` is
  `cstr`, which is undefined when the array holds no terminator.
* The operating system is an oracle `OS`: given the events of the process so
  far and the next call it answers `Res.ok ret` or `Res.fail errno`.  A run
  records the calls in program order together with their answers.
* `errno` is part of the process state: a failing call stores its error number,
  a succeeding call leaves `errno` as it was.
* `getcwd` only reads the working directory; its result is an input of the
  model (`none` for a `NULL` result) and is not recorded as an event.
* The child process has its own trace and its own oracle.  `free` is not
  modelled.
* The stack handed to `clone` is modelled by the number of bytes of the stack
  buffer that lie below the address handed over: the child's stack grows
  downwards from that address.  With no such byte every access to that stack
  leaves the buffer, and what follows the call is undefined.
-/

namespace Container

/-! ## Strings, buffers and constants -/

/-- Bytes of a C string, terminator excluded. -/
abbrev Str := List Nat

/-- Bytes of an ASCII string literal of the source. -/
def str (s : String) : Str := s.toList.map Char.toNat

/-- Value of `PATH_MAX` in `linux/limits.h`. -/
def PATH_MAX : Nat := 4096

/-- Line 17: `#define CONTAINER_ID_MAX 16`. -/
def CONTAINER_ID_MAX : Nat := 16

/-- Value of `EEXIST` in `errno.h` (Linux). -/
def EEXIST : Nat := 17

/-- Value of `MS_REC` in `sys/mount.h`. -/
def MS_REC : Nat := 16384

/-- Value of `MS_PRIVATE` in `sys/mount.h`. -/
def MS_PRIVATE : Nat := 262144

/-- Value of `MS_RELATIME` in `sys/mount.h`. -/
def MS_RELATIME : Nat := 2097152

/-- Value of `SIGCHLD` in `signal.h` (Linux). -/
def SIGCHLD : Nat := 17

/-- Value of `CLONE_NEWNS` in `sched.h`. -/
def CLONE_NEWNS : Nat := 0x00020000

/-- Value of `CLONE_NEWPID` in `sched.h`. -/
def CLONE_NEWPID : Nat := 0x20000000

/-- Value of `EXIT_FAILURE` in `stdlib.h`. -/
def EXIT_FAILURE : Nat := 1

/-- Value of `EXIT_SUCCESS` in `stdlib.h`. -/
def EXIT_SUCCESS : Nat := 0

/-- Line 18: `#define CHILD_STACK_SIZE 4096 * 10`. -/
def CHILD_STACK_SIZE : Nat := 4096 * 10

/-- Line 169: the address handed to `clone` as the child's stack is
`&child_stack`, the lowest address of the array
`char child_stack[CHILD_STACK_SIZE]` of line 167; this is its offset within the
array.  The stack of the child grows downwards from that address, and `clone`
itself stores the entry function and its argument just below it, so this is also
the number of bytes of the array the child's stack can use. -/
def clone_stack_offset : Nat := 0

/-- Lines 20-27: `struct container`.  The two arrays are kept as raw bytes. -/
structure container_t where
  /-- Bytes of `char id[CONTAINER_ID_MAX]`. -/
  id : List Nat
  /-- Bytes of `char container_image[PATH_MAX]`. -/
  container_image : List Nat
  /-- The vector `char** container_args` up to its `NULL` entry. -/
  container_args : List Str
deriving DecidableEq

/-- The bytes `strncpy(dest, src, n)` leaves in `dest`: the first `n` bytes of
`src`, padded with zero bytes when `src` is shorter than `n`.  No terminator is
written when `src` has `n` bytes or more. -/
def strncpy (src : Str) (n : Nat) : List Nat :=
  src.take n ++ List.replicate (n - src.length) 0

/-- Reading a `char` array as a `%s` argument: the bytes before the first zero
byte.  Without a zero byte the read leaves the array, which is undefined. -/
def cstr (buf : List Nat) : Option Str :=
  if 0 ∈ buf then some (buf.takeWhile (fun b => b != 0)) else none

/-- The string `snprintf(buf, size, ...)` leaves in `buf`, given the fully
formatted output: at most `size - 1` bytes are kept. -/
def snprintf (size : Nat) (formatted : Str) : Str :=
  formatted.take (size - 1)

/-- The five paths computed at lines 70-75 of `container_exec`. -/
structure Paths where
  container_dir : Str
  lowerdir : Str
  upperdir : Str
  workdir : Str
  merged : Str
deriving DecidableEq

/-- Lines 67-75: the five `snprintf` calls of `container_exec`.  `current_dir`
is the result of `getcwd(NULL, 0)` (`none` for `NULL`).  The result is `none`
when a `%s` argument is a null pointer or an unterminated array. -/
def container_paths (current_dir : Option Str) (container : container_t) :
    Option Paths :=
  match cstr container.id, current_dir, cstr container.container_image with
  | some id, some cwd, some image =>
    some {
      container_dir := snprintf PATH_MAX (str "/tmp/container/" ++ id)
      lowerdir := snprintf PATH_MAX (cwd ++ str "/images/" ++ image)
      upperdir := snprintf PATH_MAX (str "/tmp/container/" ++ id ++ str "/upper")
      workdir := snprintf PATH_MAX (str "/tmp/container/" ++ id ++ str "/work")
      merged := snprintf PATH_MAX (str "/tmp/container/" ++ id ++ str "/merged") }
  | _, _, _ => none

/-- Lines 106-109: the option string `all_dir` handed to the overlay mount. -/
def all_dir (p : Paths) : Str :=
  snprintf PATH_MAX
    (str "lowerdir=" ++ p.lowerdir ++ str ",upperdir=" ++ p.upperdir ++
      str ",workdir=" ++ p.workdir)

/-- Lines 158-164 of `main`: the `container_t` built from the argument vector.
`argv[1]` and `argv[2]` exist because `main` only gets here with `argc >= 4`;
a missing entry is read as the empty string. -/
def make_container (argv : List Str) : container_t :=
  { id := strncpy (argv.getD 1 []) CONTAINER_ID_MAX
    container_image := strncpy (argv.getD 2 []) PATH_MAX
    container_args := argv.drop 3 }

/-! ## Processes and the operating system -/

/-- The calls the program makes that act on the system. -/
inductive Call where
  | mount (source target filesystemtype : Str) (mountflags : Nat) (data : Option Str)
  | mkdir (pathname : Str) (mode : Nat)
  | change_root (new_root : Str)
  | execvp (file : Option Str) (argv : List Str)
  | printf (format : Str) (args : List (Option Str))
  /-- The `clone` call; `stack_room` is the number of bytes of the caller's stack
  buffer that lie below the stack address handed over. -/
  | clone (stack_room : Nat) (flags : Nat)
  | waitpid (pid : Nat) (options : Nat)
deriving DecidableEq

/-- Answer to a call: `ok ret` is a non-negative return value, `fail errno` is
the return value `-1` with `errno` set. -/
inductive Res where
  | ok (ret : Nat)
  | fail (errno : Nat)
deriving DecidableEq

/-- A call together with its answer. -/
abbrev Event := Call × Res

/-- The operating system: the answer to a call, given the events so far. -/
abbrev OS := List Event → Call → Res

/-- State of a running process. -/
structure St where
  errno : Nat
  trace : List Event

/-- How a process ends. -/
inductive Outcome where
  /-- Return `value` from the entry function. -/
  | returned (value : Nat)
  /-- Termination through `exit` or `err` with `status`. -/
  | exited (status : Nat)
  /-- A successful `execvp`: the process image is replaced. -/
  | replaced
  /-- Undefined behaviour of the C program. -/
  | undefined
deriving DecidableEq

/-- The events of a process and the way it ended. -/
structure Run where
  trace : List Event
  outcome : Outcome
deriving DecidableEq

/-- Exit status of a finished process, when it has one. -/
def Outcome.status : Outcome → Option Nat
  | .returned v => some v
  | .exited n => some n
  | .replaced => none
  | .undefined => none

/-- Whether a call returned a negative value. -/
def Res.neg : Res → Bool
  | .ok _ => false
  | .fail _ => true

/-- Issue a call: ask the system, record the event, update `errno`. -/
def sys (os : OS) (c : Call) (s : St) : Res × St :=
  let r := os s.trace c
  (r, { errno := (match r with
                  | .ok _ => s.errno
                  | .fail e => e),
        trace := s.trace ++ [(c, r)] })

/-- The `err(status, fmt)` of `err.h`: print a diagnostic and terminate. -/
def err (status : Nat) (_fmt : String) (s : St) : Run :=
  { trace := s.trace, outcome := .exited status }

/-- Modelled from the spec: `change_root` of `change_root.h`, whose definition
is not part of the sources at hand.  It makes `new_root` the root of the
process; on success control returns to the caller, on failure the launch is
fatal: the process terminates with a failure status. -/
def change_root (os : OS) (new_root : Str) (s : St) : Run ⊕ St :=
  match sys os (.change_root new_root) s with
  | (.ok _, s1) => .inr s1
  | (.fail _, s1) => .inl { trace := s1.trace, outcome := .exited EXIT_FAILURE }

/-- Lines 33-36: `usage`. -/
def usage (os : OS) (cmd : Option Str) (s : St) : Run :=
  let (_, s1) := sys os (.printf (str "Usage: %s [ID] [IMAGE] [CMD]...\n") [cmd]) s
  { trace := s1.trace, outcome := .exited EXIT_FAILURE }

/-- Lines 43-135: `container_exec`, the entry point of the child process.
`current_dir` is the result of `getcwd(NULL, 0)`, `errno0` the value of `errno`
when the child starts. -/
def container_exec (os : OS) (current_dir : Option Str) (container : container_t)
    (errno0 : Nat) : Run :=
  let s0 : St := { errno := errno0, trace := [] }
  let (r1, s1) := sys os (.mount (str "/") (str "/") (str "none") (MS_PRIVATE ||| MS_REC) none) s0
  if r1.neg then err 1 "mount / private" s1 else
  match container_paths current_dir container with
  | none => { trace := s1.trace, outcome := .undefined }
  | some p =>
  let (r2, s2) := sys os (.mkdir p.container_dir 0o700) s1
  if r2.neg && s2.errno != EEXIST then
    err 1 "Failed to create the container directory" s2 else
  let (r3, s3) := sys os (.mkdir p.upperdir 0o700) s2
  if r3.neg && s3.errno != EEXIST then
    err 1 "Failed to create the upper directory" s3 else
  let (r4, s4) := sys os (.mkdir p.workdir 0o700) s3
  if r4.neg && s4.errno != EEXIST then
    err 1 "Failed to create the work directory" s4 else
  let (r5, s5) := sys os (.mkdir p.merged 0o700) s4
  if r5.neg && s5.errno != EEXIST then
    err 1 "Failed to create the merged directory" s5 else
  let (r6, s6) := sys os (.mount (str "overlay") p.merged (str "overlay") MS_RELATIME
    (some (all_dir p))) s5
  if r6.neg then err 1 "Failed to mount the overlay filesystem" s6 else
  match change_root os p.merged s6 with
  | .inl fatal => fatal
  | .inr s7 =>
  let (r8, s8) := sys os (.execvp container.container_args.head? container.container_args) s7
  match r8 with
  | .ok _ => { trace := s8.trace, outcome := .replaced }
  | .fail _ => err 1 "Failed to execute execvp" s8

/-- The host process and the isolated process.  `child` is the run of the
isolated process when `clone` created it on a stack inside the stack buffer. -/
structure SystemRun where
  host : Run
  child : Option Run
deriving DecidableEq

/-- Lines 170-175 of `main`: the code that follows the `clone` call, given the
answer `r` to that call. -/
def main_wait (os : OS) (r : Res) (s : St) : Run :=
  match r with
  | .fail _ => err 1 "Failed to clone" s
  | .ok pid =>
    let (_, s4) := sys os (.waitpid pid 0) s
    { trace := s4.trace, outcome := .returned EXIT_SUCCESS }

/-- Lines 137-176: `main`.  `os` answers the calls of the host process,
`child_os` those of the child, `current_dir` is the result of the child's
`getcwd(NULL, 0)`; `argc` is the length of `argv`.  The `getcwd` of line 156
fills a buffer that is never read.  The stack address handed to `clone` leaves
no byte of `child_stack` below it (`clone_stack_offset`): the stores of `clone`
and the stack of the child fall outside the array, into the frame of `main`,
so that neither the rest of `main` nor the child has a defined behaviour. -/
def main (os child_os : OS) (current_dir : Option Str) (argv : List Str) : SystemRun :=
  let s0 : St := { errno := 0, trace := [] }
  if argv.length < 4 then { host := usage os argv.head? s0, child := none } else
  let (r1, s1) := sys os (.mkdir (str "/tmp/container") 0o700) s0
  if r1.neg && s1.errno != EEXIST then
    { host := err 1 "Failed to create a directory to store container file systems" s1
      child := none } else
  let mounted : Run ⊕ St :=
    if s1.errno != EEXIST then
      let (r2, s2) := sys os (.mount (str "tmpfs") (str "/tmp/container") (str "tmpfs") 0
        (some [])) s1
      if r2.neg then .inl (err 1 "Failed to mount tmpfs on /tmp/container" s2) else .inr s2
    else .inr s1
  match mounted with
  | .inl fatal => { host := fatal, child := none }
  | .inr s2 =>
  let container := make_container argv
  let clone_flags := SIGCHLD ||| CLONE_NEWNS ||| CLONE_NEWPID
  let (r3, s3) := sys os (.clone clone_stack_offset clone_flags) s2
  if clone_stack_offset = 0 then
    { host := { trace := s3.trace, outcome := .undefined }, child := none }
  else
    { host := main_wait os r3 s3
      child :=
        match r3 with
        | .ok _ => some (container_exec child_os current_dir container s3.errno)
        | .fail _ => none }

/-! ## Vocabulary of the statements -/

/-- The staging paths of a run, in the order they are created. -/
def staging (p : Paths) : List Str := [p.container_dir, p.upperdir, p.workdir, p.merged]

/-- Directory `child` is `parent` followed by one more path component. -/
def direct_child (child parent : Str) : Prop :=
  ∃ name : Str, name ≠ [] ∧ 47 ∉ name ∧ child = parent ++ 47 :: name

/-- A `mkdir` answer after which the caller goes on: success, or `EEXIST`. -/
def Res.tolerated : Res → Bool
  | .ok _ => true
  | .fail e => e == EEXIST

/-- The events `rest`, issued after the events `pre`, carry the answers of `os`. -/
def answered (os : OS) : List Event → List Event → Prop
  | _, [] => True
  | pre, ev :: rest => ev.2 = os pre ev.1 ∧ answered os (pre ++ [ev]) rest

/-- The first call of `container_exec` (line 47). -/
def private_mount : Call :=
  .mount (str "/") (str "/") (str "none") (MS_PRIVATE ||| MS_REC) none

/-- The union mount of `container_exec` (line 113). -/
def overlay_mount (p : Paths) : Call :=
  .mount (str "overlay") p.merged (str "overlay") MS_RELATIME (some (all_dir p))

/-- The calls of `container_exec` in program order. -/
def exec_calls (p : Paths) (args : List Str) : List Call :=
  [private_mount, .mkdir p.container_dir 0o700, .mkdir p.upperdir 0o700,
    .mkdir p.workdir 0o700, .mkdir p.merged 0o700, overlay_mount p,
    .change_root p.merged, .execvp args.head? args]

/-- The answers a run of `container_exec` can collect, with its outcome: the run
stops at the first fatal answer. -/
def exec_shape (rs : List Res) (out : Outcome) : Prop :=
  (∃ e, rs = [.fail e] ∧ out = .exited 1) ∨
  (∃ v1 r2, rs = [.ok v1, r2] ∧ r2.tolerated = false ∧ out = .exited 1) ∨
  (∃ v1 r2 r3, rs = [.ok v1, r2, r3] ∧ r2.tolerated = true ∧ r3.tolerated = false ∧
    out = .exited 1) ∨
  (∃ v1 r2 r3 r4, rs = [.ok v1, r2, r3, r4] ∧ r2.tolerated = true ∧ r3.tolerated = true ∧
    r4.tolerated = false ∧ out = .exited 1) ∨
  (∃ v1 r2 r3 r4 r5, rs = [.ok v1, r2, r3, r4, r5] ∧ r2.tolerated = true ∧
    r3.tolerated = true ∧ r4.tolerated = true ∧ r5.tolerated = false ∧ out = .exited 1) ∨
  (∃ v1 r2 r3 r4 r5, r2.tolerated = true ∧ r3.tolerated = true ∧ r4.tolerated = true ∧
    r5.tolerated = true ∧
    ((∃ e, rs = [.ok v1, r2, r3, r4, r5, .fail e] ∧ out = .exited 1) ∨
     (∃ v6 e, rs = [.ok v1, r2, r3, r4, r5, .ok v6, .fail e] ∧ out = .exited 1) ∨
     (∃ v6 v7 e, rs = [.ok v1, r2, r3, r4, r5, .ok v6, .ok v7, .fail e] ∧ out = .exited 1) ∨
     (∃ v6 v7 v8, rs = [.ok v1, r2, r3, r4, r5, .ok v6, .ok v7, .ok v8] ∧ out = .replaced)))

/-- Whether a call is `change_root`. -/
def Call.is_change_root : Call → Bool
  | .change_root _ => true
  | _ => false

/-- Whether a call is `execvp`. -/
def Call.is_execvp : Call → Bool
  | .execvp _ _ => true
  | _ => false

/-- Whether a call is `mkdir`. -/
def Call.is_mkdir : Call → Bool
  | .mkdir _ _ => true
  | _ => false

/-- Whether a call is `mount`. -/
def Call.is_mount : Call → Bool
  | .mount _ _ _ _ _ => true
  | _ => false

/-- Whether a call is `clone`. -/
def Call.is_clone : Call → Bool
  | .clone _ _ => true
  | _ => false

/-- Whether a call is `waitpid`. -/
def Call.is_waitpid : Call → Bool
  | .waitpid _ _ => true
  | _ => false

/-- Whether a call is `printf`. -/
def Call.is_printf : Call → Bool
  | .printf _ _ => true
  | _ => false

/-- The `printf` of `usage` (line 34). -/
def usage_print (cmd : Option Str) : Call :=
  .printf (str "Usage: %s [ID] [IMAGE] [CMD]...\n") [cmd]

/-- The `mkdir` of the staging root in `main` (line 144). -/
def staging_mkdir : Call := .mkdir (str "/tmp/container") 0o700

/-- The `tmpfs` mount of `main` (line 148). -/
def tmpfs_mount : Call :=
  .mount (str "tmpfs") (str "/tmp/container") (str "tmpfs") 0 (some [])

/-- The `clone` of `main` (lines 168-169). -/
def clone_call : Call := .clone clone_stack_offset (SIGCHLD ||| CLONE_NEWNS ||| CLONE_NEWPID)

/-! ## Concrete systems and inputs -/

/-- A system on which every call succeeds. -/
def all_ok : OS := fun _ _ => .ok 0

/-- A system on which `execvp` fails with `ENOENT` and every other call succeeds. -/
def exec_fails : OS := fun _ c =>
  match c with
  | .execvp _ _ => .fail 2
  | _ => .ok 0

/-- A system on which the overlay mount fails with `ENOENT`, every `mkdir` finds
its directory in place and every other call succeeds. -/
def overlay_fails : OS := fun _ c =>
  match c with
  | .mount _ _ _ 2097152 _ => .fail 2
  | .mkdir _ _ => .fail 17
  | _ => .ok 0

/-- A system on which `change_root` fails with `EINVAL` and every other call
succeeds. -/
def root_fails : OS := fun _ c =>
  match c with
  | .change_root _ => .fail 22
  | _ => .ok 0

/-- An argument vector: `run c1 alpine /bin/echo hello`. -/
def demo_argv : List Str :=
  [str "run", str "c1", str "alpine", str "/bin/echo", str "hello"]

/-- The paths of container `c1` of image `alpine`, launched from `/home/u`. -/
def demo_paths : Paths :=
  { container_dir := str "/tmp/container/c1"
    lowerdir := str "/home/u/images/alpine"
    upperdir := str "/tmp/container/c1/upper"
    workdir := str "/tmp/container/c1/work"
    merged := str "/tmp/container/c1/merged" }

/-- An argument vector naming a command that does not exist. -/
def missing_argv : List Str :=
  [str "run", str "c1", str "alpine", str "/bin/nosuch"]

/-- A working directory of 4040 bytes: twenty components of 201 bytes each. -/
def long_cwd : Str := (List.replicate 20 (47 :: List.replicate 201 100)).flatten

/-- An argument vector: `run a img sh`. -/
def long_argv : List Str := [str "run", str "a", str "img", str "sh"]

/-! ## Lemmas -/

/-! ### Strings and paths -/

/-- Reading up to the delimiter `d`: a string without `d`, followed by nothing or
by `d`, is read back whole. -/
theorem takeWhile_stop (d : Nat) (a s : Str) (ha : d ∉ a)
    (hs : s = [] ∨ ∃ t, s = d :: t) :
    (a ++ s).takeWhile (fun b => b != d) = a := by
  induction a with
  | nil =>
    rcases hs with rfl | ⟨t, rfl⟩
    · rfl
    · simp [List.takeWhile]
  | cons x xs ih =>
    have hx : x ≠ d := fun h => ha (by simp [h])
    have hxs : d ∉ xs := fun h => ha (by simp [h])
    have hb : (x != d) = true := by simp [hx]
    rw [List.cons_append, List.takeWhile_cons, hb, ih hxs]
    rfl

/-- An array filled by `strncpy` from a shorter C string reads back as that string. -/
theorem cstr_strncpy (s : Str) (n : Nat) (h0 : 0 ∉ s) (hlen : s.length < n) :
    cstr (strncpy s n) = some s := by
  obtain ⟨k, hk⟩ : ∃ k, n - s.length = k + 1 := ⟨n - s.length - 1, by omega⟩
  have htake : s.take n = s := List.take_of_length_le (by omega)
  have hbuf : strncpy s n = s ++ 0 :: List.replicate k 0 := by
    simp [strncpy, htake, hk, List.replicate_succ]
  rw [hbuf]
  unfold cstr
  rw [if_pos (by simp), takeWhile_stop 0 s _ h0 (Or.inr ⟨_, rfl⟩)]

/-- `snprintf` keeps an output that fits its buffer. -/
theorem snprintf_fit (size : Nat) (l : Str) (h : l.length ≤ size - 1) :
    snprintf size l = l := List.take_of_length_le h

/-- The staging root `/tmp/container/` has 15 bytes. -/
theorem str_root_length : (str "/tmp/container/").length = 15 := by decide

/-- The five paths in closed form, for an id shorter than the id array and a
lower directory that fits its buffer. -/
theorem container_paths_fit (argv0 id image cwd : Str) (rest : List Str)
    (hid : id.length ≤ 15) (hid0 : 0 ∉ id) (himg0 : 0 ∉ image)
    (hfit : (cwd ++ str "/images/" ++ image).length ≤ PATH_MAX - 1) :
    container_paths (some cwd) (make_container (argv0 :: id :: image :: rest)) =
      some { container_dir := str "/tmp/container/" ++ id
             lowerdir := cwd ++ str "/images/" ++ image
             upperdir := (str "/tmp/container/" ++ id) ++ str "/upper"
             workdir := (str "/tmp/container/" ++ id) ++ str "/work"
             merged := (str "/tmp/container/" ++ id) ++ str "/merged" } := by
  have himg : image.length < PATH_MAX := by
    simp only [List.length_append] at hfit
    simp only [PATH_MAX] at hfit ⊢
    omega
  have h1 : cstr (strncpy id CONTAINER_ID_MAX) = some id :=
    cstr_strncpy id _ hid0 (by simp only [CONTAINER_ID_MAX]; omega)
  have h2 : cstr (strncpy image PATH_MAX) = some image := cstr_strncpy image _ himg0 himg
  have e1 : (str "/upper").length = 6 := by decide
  have e2 : (str "/work").length = 5 := by decide
  have e3 : (str "/merged").length = 7 := by decide
  simp only [container_paths, make_container, List.getD_cons_succ, List.getD_cons_zero, h1, h2]
  rw [snprintf_fit _ _ hfit, snprintf_fit, snprintf_fit, snprintf_fit, snprintf_fit]
  all_goals
    simp only [List.length_append, str_root_length, e1, e2, e3, PATH_MAX]
    omega

/-- The four staging paths in closed form, for an id shorter than the id array. -/
theorem staging_of_paths (cwd : Option Str) (argv0 id : Str) (rest : List Str) (p : Paths)
    (hid : id.length ≤ 15) (hid0 : 0 ∉ id)
    (hp : container_paths cwd (make_container (argv0 :: id :: rest)) = some p) :
    p.container_dir = str "/tmp/container/" ++ id ∧
    p.upperdir = (str "/tmp/container/" ++ id) ++ str "/upper" ∧
    p.workdir = (str "/tmp/container/" ++ id) ++ str "/work" ∧
    p.merged = (str "/tmp/container/" ++ id) ++ str "/merged" := by
  have h1 : cstr (strncpy id CONTAINER_ID_MAX) = some id :=
    cstr_strncpy id _ hid0 (by simp only [CONTAINER_ID_MAX]; omega)
  have e1 : (str "/upper").length = 6 := by decide
  have e2 : (str "/work").length = 5 := by decide
  have e3 : (str "/merged").length = 7 := by decide
  have f1 : snprintf PATH_MAX (str "/tmp/container/" ++ id) = str "/tmp/container/" ++ id :=
    snprintf_fit _ _ (by simp only [List.length_append, str_root_length, PATH_MAX]; omega)
  have f2 : snprintf PATH_MAX (str "/tmp/container/" ++ id ++ str "/upper") =
      str "/tmp/container/" ++ id ++ str "/upper" :=
    snprintf_fit _ _ (by simp only [List.length_append, str_root_length, e1, PATH_MAX]; omega)
  have f3 : snprintf PATH_MAX (str "/tmp/container/" ++ id ++ str "/work") =
      str "/tmp/container/" ++ id ++ str "/work" :=
    snprintf_fit _ _ (by simp only [List.length_append, str_root_length, e2, PATH_MAX]; omega)
  have f4 : snprintf PATH_MAX (str "/tmp/container/" ++ id ++ str "/merged") =
      str "/tmp/container/" ++ id ++ str "/merged" :=
    snprintf_fit _ _ (by simp only [List.length_append, str_root_length, e3, PATH_MAX]; omega)
  simp only [container_paths, make_container, List.getD_cons_succ, List.getD_cons_zero, h1] at hp
  cases cwd with
  | none => simp at hp
  | some c =>
    cases hi : cstr (strncpy (rest.getD 0 []) PATH_MAX) with
    | none => rw [hi] at hp; simp at hp
    | some im =>
      rw [hi] at hp
      simp only [Option.some.injEq] at hp
      subst hp
      exact ⟨f1, f2, f3, f4⟩

/-- Each staging path is the root, the id, and a suffix that is empty or starts
with `/`. -/
theorem staging_mem (id : Str) (p : Paths)
    (h : p.container_dir = str "/tmp/container/" ++ id ∧
      p.upperdir = (str "/tmp/container/" ++ id) ++ str "/upper" ∧
      p.workdir = (str "/tmp/container/" ++ id) ++ str "/work" ∧
      p.merged = (str "/tmp/container/" ++ id) ++ str "/merged")
    (x : Str) (hx : x ∈ staging p) :
    ∃ s : Str, (s = [] ∨ ∃ t, s = 47 :: t) ∧ x = str "/tmp/container/" ++ (id ++ s) := by
  obtain ⟨h1, h2, h3, h4⟩ := h
  simp only [staging, List.mem_cons, List.mem_singleton, List.not_mem_nil, or_false] at hx
  rcases hx with rfl | rfl | rfl | rfl
  · exact ⟨[], Or.inl rfl, by rw [h1, List.append_nil]⟩
  · exact ⟨str "/upper", Or.inr ⟨str "upper", by decide⟩, by rw [h2, List.append_assoc]⟩
  · exact ⟨str "/work", Or.inr ⟨str "work", by decide⟩, by rw [h3, List.append_assoc]⟩
  · exact ⟨str "/merged", Or.inr ⟨str "merged", by decide⟩, by rw [h4, List.append_assoc]⟩

/-! ### Runs of `container_exec` -/

/-- The test `mkdir(...) < 0 && errno != EEXIST`, on the answer of that `mkdir`. -/
theorem neg_and_errno (r : Res) (e0 : Nat) :
    (r.neg && (match r with
      | .ok _ => e0
      | .fail e => e) != EEXIST) = !r.tolerated := by
  cases r <;> simp [Res.neg, Res.tolerated, bne]

/-- Every run of `container_exec` with defined paths: its events are the calls of
the program order paired with the answers of the system, up to the first fatal
answer. -/
theorem container_exec_shape (os : OS) (cwd : Option Str) (c : container_t) (e0 : Nat)
    (p : Paths) (hp : container_paths cwd c = some p) :
    answered os [] (container_exec os cwd c e0).trace ∧
    ∃ rs out, container_exec os cwd c e0 = ⟨(exec_calls p c.container_args).zip rs, out⟩ ∧
      exec_shape rs out := by
  unfold container_exec
  simp only [sys, List.nil_append, neg_and_errno, hp]
  generalize h1 : os [] (Call.mount (str "/") (str "/") (str "none") (MS_PRIVATE ||| MS_REC)
    none) = r1
  cases r1 with
  | fail e =>
    refine ⟨by simp [Res.neg, err, answered, h1], [.fail e], .exited 1, ?_, ?_⟩
    · simp [Res.neg, err, exec_calls, private_mount]
    · exact Or.inl ⟨e, rfl, rfl⟩
  | ok v1 =>
    simp only [Res.neg, Bool.false_eq_true, if_false]
    simp only [List.singleton_append, List.cons_append, List.nil_append]
    generalize h2 : os _ (Call.mkdir p.container_dir 448) = r2
    cases ht2 : r2.tolerated with
    | false =>
      refine ⟨by simp [err, answered, h1, h2], [.ok v1, r2], .exited 1, ?_, ?_⟩
      · simp [err, exec_calls, private_mount]
      · exact Or.inr (Or.inl ⟨v1, r2, rfl, ht2, rfl⟩)
    | true =>
      simp only [Bool.not_true, Bool.false_eq_true, if_false]
      generalize h3 : os _ (Call.mkdir p.upperdir 448) = r3
      cases ht3 : r3.tolerated with
      | false =>
        refine ⟨by simp [err, answered, h1, h2, h3], [.ok v1, r2, r3], .exited 1, ?_, ?_⟩
        · simp [err, exec_calls, private_mount]
        · exact Or.inr (Or.inr (Or.inl ⟨v1, r2, r3, rfl, ht2, ht3, rfl⟩))
      | true =>
        simp only [Bool.not_true, Bool.false_eq_true, if_false]
        generalize h4 : os _ (Call.mkdir p.workdir 448) = r4
        cases ht4 : r4.tolerated with
        | false =>
          refine ⟨by simp [err, answered, h1, h2, h3, h4], [.ok v1, r2, r3, r4], .exited 1,
            ?_, ?_⟩
          · simp [err, exec_calls, private_mount]
          · exact Or.inr (Or.inr (Or.inr (Or.inl ⟨v1, r2, r3, r4, rfl, ht2, ht3, ht4, rfl⟩)))
        | true =>
          simp only [Bool.not_true, Bool.false_eq_true, if_false]
          generalize h5 : os _ (Call.mkdir p.merged 448) = r5
          cases ht5 : r5.tolerated with
          | false =>
            refine ⟨by simp [err, answered, h1, h2, h3, h4, h5], [.ok v1, r2, r3, r4, r5],
              .exited 1, ?_, ?_⟩
            · simp [err, exec_calls, private_mount]
            · exact Or.inr (Or.inr (Or.inr (Or.inr (Or.inl
                ⟨v1, r2, r3, r4, r5, rfl, ht2, ht3, ht4, ht5, rfl⟩))))
          | true =>
            simp only [Bool.not_true, Bool.false_eq_true, if_false]
            generalize h6 : os _ (Call.mount (str "overlay") p.merged (str "overlay") MS_RELATIME
              (some (all_dir p))) = r6
            cases r6 with
            | fail e6 =>
              refine ⟨by simp [Res.neg, err, answered, h1, h2, h3, h4, h5, h6],
                [.ok v1, r2, r3, r4, r5, .fail e6], .exited 1, ?_, ?_⟩
              · simp [Res.neg, err, exec_calls, private_mount, overlay_mount]
              · exact Or.inr (Or.inr (Or.inr (Or.inr (Or.inr
                  ⟨v1, r2, r3, r4, r5, ht2, ht3, ht4, ht5, Or.inl ⟨e6, rfl, rfl⟩⟩))))
            | ok v6 =>
              simp only [Res.neg, Bool.false_eq_true, if_false, change_root, sys]
              generalize h7 : os _ (Call.change_root p.merged) = r7
              cases r7 with
              | fail e7 =>
                refine ⟨by simp [answered, h1, h2, h3, h4, h5, h6, h7],
                  [.ok v1, r2, r3, r4, r5, .ok v6, .fail e7], .exited 1, ?_, ?_⟩
                · simp [exec_calls, private_mount, overlay_mount, EXIT_FAILURE]
                · exact Or.inr (Or.inr (Or.inr (Or.inr (Or.inr
                    ⟨v1, r2, r3, r4, r5, ht2, ht3, ht4, ht5,
                      Or.inr (Or.inl ⟨v6, e7, rfl, rfl⟩)⟩))))
              | ok v7 =>
                simp only [List.singleton_append, List.cons_append, List.nil_append]
                generalize h8 : os _ (Call.execvp _ _) = r8
                cases r8 with
                | fail e8 =>
                  refine ⟨by simp [err, answered, h1, h2, h3, h4, h5, h6, h7, h8],
                    [.ok v1, r2, r3, r4, r5, .ok v6, .ok v7, .fail e8], .exited 1, ?_, ?_⟩
                  · simp [err, exec_calls, private_mount, overlay_mount]
                  · exact Or.inr (Or.inr (Or.inr (Or.inr (Or.inr
                      ⟨v1, r2, r3, r4, r5, ht2, ht3, ht4, ht5,
                        Or.inr (Or.inr (Or.inl ⟨v6, v7, e8, rfl, rfl⟩))⟩))))
                | ok v8 =>
                  refine ⟨by simp [answered, h1, h2, h3, h4, h5, h6, h7, h8],
                    [.ok v1, r2, r3, r4, r5, .ok v6, .ok v7, .ok v8], .replaced, ?_, ?_⟩
                  · simp [exec_calls, private_mount, overlay_mount]
                  · exact Or.inr (Or.inr (Or.inr (Or.inr (Or.inr
                      ⟨v1, r2, r3, r4, r5, ht2, ht3, ht4, ht5,
                        Or.inr (Or.inr (Or.inr ⟨v6, v7, v8, rfl, rfl⟩))⟩))))

/-- The runs of `container_exec` when a path is undefined: they end after the
private mount. -/
theorem container_exec_undefined (os : OS) (cwd : Option Str) (c : container_t) (e0 : Nat)
    (hp : container_paths cwd c = none) :
    (∃ e, os [] private_mount = .fail e ∧
      container_exec os cwd c e0 = ⟨[(private_mount, .fail e)], .exited 1⟩) ∨
    (∃ v, os [] private_mount = .ok v ∧
      container_exec os cwd c e0 = ⟨[(private_mount, .ok v)], .undefined⟩) := by
  unfold container_exec
  simp only [sys, List.nil_append, hp, private_mount]
  cases os [] (Call.mount (str "/") (str "/") (str "none") (MS_PRIVATE ||| MS_REC) none) with
  | fail e => simp [Res.neg, err]
  | ok v => simp [Res.neg]

/-- The sources of the two mounts of `container_exec` differ. -/
theorem str_overlay_ne : str "overlay" ≠ str "/" := by decide

/-- An event of an answered trace carries the answer of the system to its call,
at the history before it. -/
theorem answered_getElem (os : OS) (l : List Event) :
    ∀ (pre : List Event) (k : Nat) (ev : Event), answered os pre l → l[k]? = some ev →
      ev.2 = os (pre ++ l.take k) ev.1 := by
  induction l with
  | nil => intro pre k ev _ h; simp at h
  | cons x xs ih =>
    intro pre k ev ha h
    obtain ⟨hx, hxs⟩ := ha
    cases k with
    | zero =>
      simp only [List.getElem?_cons_zero, Option.some.injEq] at h
      subst h
      simpa using hx
    | succ k =>
      simp only [List.getElem?_cons_succ] at h
      have := ih (pre ++ [x]) k ev hxs h
      simpa using this

/-- A run of `container_exec` has between one and eight events. -/
theorem exec_shape_length (rs : List Res) (out : Outcome) (h : exec_shape rs out) :
    1 ≤ rs.length ∧ rs.length ≤ 8 := by
  rcases h with ⟨e1, rfl, rfl⟩ | ⟨v1, r2, rfl, t2, rfl⟩ | ⟨v1, r2, r3, rfl, t2, t3, rfl⟩ |
    ⟨v1, r2, r3, r4, rfl, t2, t3, t4, rfl⟩ | ⟨v1, r2, r3, r4, r5, rfl, t2, t3, t4, t5, rfl⟩ |
    ⟨v1, r2, r3, r4, r5, t2, t3, t4, t5, ⟨e6, rfl, rfl⟩ | ⟨v6, e7, rfl, rfl⟩ |
      ⟨v6, v7, e8, rfl, rfl⟩ | ⟨v6, v7, v8, rfl, rfl⟩⟩ <;> simp

/-- A run whose answers are all successes has eight of them and ends in the
replaced process image. -/
theorem exec_shape_all_ok (rs : List Res) (out : Outcome) (h : exec_shape rs out)
    (hok : ∀ (k : Nat) (r : Res), rs[k]? = some r → ∃ v, r = .ok v) :
    ∃ v1 v2 v3 v4 v5 v6 v7 v8,
      rs = [.ok v1, .ok v2, .ok v3, .ok v4, .ok v5, .ok v6, .ok v7, .ok v8] ∧
      out = .replaced := by
  have tol : ∀ (k : Nat) (r : Res), rs[k]? = some r → r.tolerated = false → False := by
    intro k r hr ht
    obtain ⟨v, rfl⟩ := hok k r hr
    simp [Res.tolerated] at ht
  have nofail : ∀ (k : Nat) (e : Nat), rs[k]? = some (.fail e) → False := by
    intro k e hr
    obtain ⟨v, hv⟩ := hok k _ hr
    cases hv
  rcases h with ⟨e1, rfl, rfl⟩ | ⟨v1, r2, rfl, t2, rfl⟩ | ⟨v1, r2, r3, rfl, t2, t3, rfl⟩ |
    ⟨v1, r2, r3, r4, rfl, t2, t3, t4, rfl⟩ | ⟨v1, r2, r3, r4, r5, rfl, t2, t3, t4, t5, rfl⟩ |
    ⟨v1, r2, r3, r4, r5, t2, t3, t4, t5, ⟨e6, rfl, rfl⟩ | ⟨v6, e7, rfl, rfl⟩ |
      ⟨v6, v7, e8, rfl, rfl⟩ | ⟨v6, v7, v8, rfl, rfl⟩⟩
  · exact (nofail 0 e1 rfl).elim
  · exact (tol 1 r2 rfl t2).elim
  · exact (tol 2 r3 rfl t3).elim
  · exact (tol 3 r4 rfl t4).elim
  · exact (tol 4 r5 rfl t5).elim
  · exact (nofail 5 e6 rfl).elim
  · exact (nofail 6 e7 rfl).elim
  · exact (nofail 7 e8 rfl).elim
  · obtain ⟨v2, rfl⟩ := hok 1 r2 rfl
    obtain ⟨v3, rfl⟩ := hok 2 r3 rfl
    obtain ⟨v4, rfl⟩ := hok 3 r4 rfl
    obtain ⟨v5, rfl⟩ := hok 4 r5 rfl
    exact ⟨v1, v2, v3, v4, v5, v6, v7, v8, rfl, rfl⟩

/-- The run of `container_exec` on a system where every call succeeds. -/
theorem container_exec_all_ok (os : OS) (cwd : Option Str) (c : container_t) (e0 : Nat)
    (p : Paths) (hp : container_paths cwd c = some p)
    (hok : ∀ h call, ∃ v, os h call = .ok v) :
    ∃ v1 v2 v3 v4 v5 v6 v7 v8, container_exec os cwd c e0 =
      ⟨[(.mount (str "/") (str "/") (str "none") (MS_PRIVATE ||| MS_REC) none, .ok v1),
        (.mkdir p.container_dir 0o700, .ok v2),
        (.mkdir p.upperdir 0o700, .ok v3),
        (.mkdir p.workdir 0o700, .ok v4),
        (.mkdir p.merged 0o700, .ok v5),
        (.mount (str "overlay") p.merged (str "overlay") MS_RELATIME (some (all_dir p)), .ok v6),
        (.change_root p.merged, .ok v7),
        (.execvp c.container_args.head? c.container_args, .ok v8)], .replaced⟩ := by
  obtain ⟨hans, rs, out, hrun, hshape⟩ := container_exec_shape os cwd c e0 p hp
  rw [hrun] at hans ⊢
  have hall : ∀ (k : Nat) (r : Res), rs[k]? = some r → ∃ v, r = .ok v := by
    intro k r hr
    have hk : k < rs.length := by
      rcases Nat.lt_or_ge k rs.length with h | h
      · exact h
      · rw [List.getElem?_eq_none h] at hr; cases hr
    have hk8 := (exec_shape_length rs out hshape).2
    obtain ⟨cl, hcl⟩ : ∃ cl, (exec_calls p c.container_args)[k]? = some cl :=
      ⟨_, List.getElem?_eq_getElem (by show k < 8; omega)⟩
    have h := answered_getElem os _ [] k (cl, r) hans (List.getElem?_zip_eq_some.2 ⟨hcl, hr⟩)
    obtain ⟨v, hv⟩ := hok ([] ++ List.take k ((exec_calls p c.container_args).zip rs)) cl
    exact ⟨v, h.trans hv⟩
  obtain ⟨v1, v2, v3, v4, v5, v6, v7, v8, rfl, rfl⟩ := exec_shape_all_ok rs out hshape hall
  exact ⟨v1, v2, v3, v4, v5, v6, v7, v8, rfl⟩

/-- The child process never calls `printf`, `clone` or `waitpid`. -/
theorem container_exec_no_host_calls (os : OS) (cwd : Option Str) (c : container_t) (e0 : Nat) :
    ∀ ev ∈ (container_exec os cwd c e0).trace,
      ev.1.is_printf = false ∧ ev.1.is_clone = false ∧ ev.1.is_waitpid = false := by
  cases hp : container_paths cwd c with
  | none =>
    rcases container_exec_undefined os cwd c e0 hp with ⟨e1, -, h⟩ | ⟨v, -, h⟩ <;>
      simp [h, private_mount, Call.is_printf, Call.is_clone, Call.is_waitpid]
  | some p =>
    obtain ⟨-, rs, out, hrun, hshape⟩ := container_exec_shape os cwd c e0 p hp
    rw [hrun]
    intro ev hev
    have h1 := (List.of_mem_zip hev).1
    simp only [exec_calls, List.mem_cons, List.mem_singleton, List.not_mem_nil, or_false] at h1
    rcases h1 with h | h | h | h | h | h | h | h <;>
      simp [h, private_mount, overlay_mount, Call.is_printf, Call.is_clone, Call.is_waitpid]

/-- A failed `execvp` ends the run of `container_exec` with exit status 1. -/
theorem execvp_failure_exit (os : OS) (cwd : Option Str) (c : container_t) (e0 : Nat)
    (f : Option Str) (a : List Str) (e : Nat)
    (hexec : (Call.execvp f a, Res.fail e) ∈ (container_exec os cwd c e0).trace) :
    (container_exec os cwd c e0).outcome = .exited 1 := by
  cases hp : container_paths cwd c with
  | none =>
    rcases container_exec_undefined os cwd c e0 hp with ⟨e1, -, h⟩ | ⟨v, -, h⟩ <;>
      simp [h, private_mount] at hexec
  | some p =>
    obtain ⟨-, rs, out, hrun, hshape⟩ := container_exec_shape os cwd c e0 p hp
    rw [hrun] at hexec ⊢
    rcases hshape with ⟨e1, rfl, rfl⟩ | ⟨v1, r2, rfl, -, rfl⟩ | ⟨v1, r2, r3, rfl, -, -, rfl⟩ |
      ⟨v1, r2, r3, r4, rfl, -, -, -, rfl⟩ | ⟨v1, r2, r3, r4, r5, rfl, -, -, -, -, rfl⟩ |
      ⟨v1, r2, r3, r4, r5, -, -, -, -, ⟨e6, rfl, rfl⟩ | ⟨v6, e7, rfl, rfl⟩ |
        ⟨v6, v7, e8, rfl, rfl⟩ | ⟨v6, v7, v8, rfl, rfl⟩⟩
    all_goals first
      | rfl
      | simp [exec_calls, private_mount, overlay_mount] at hexec

/-! ### Runs of `main` -/

/-- Every run of `main`, by the answers of the system: it ends before `clone`
with an exit status, or at `clone` without a defined behaviour. -/
theorem main_shape (os child_os : OS) (cwd : Option Str) (argv : List Str) :
    answered os [] (main os child_os cwd argv).host.trace ∧
    ((argv.length < 4 ∧ ∃ r, main os child_os cwd argv =
        ⟨⟨[(usage_print argv.head?, r)], .exited EXIT_FAILURE⟩, none⟩) ∨
     (4 ≤ argv.length ∧
      ((∃ e, e ≠ EEXIST ∧ main os child_os cwd argv =
          ⟨⟨[(staging_mkdir, .fail e)], .exited 1⟩, none⟩) ∨
       (∃ v e, main os child_os cwd argv =
          ⟨⟨[(staging_mkdir, .ok v), (tmpfs_mount, .fail e)], .exited 1⟩, none⟩) ∨
       (∃ v v2 r, main os child_os cwd argv =
          ⟨⟨[(staging_mkdir, .ok v), (tmpfs_mount, .ok v2), (clone_call, r)],
            .undefined⟩, none⟩) ∨
       (∃ r, main os child_os cwd argv =
          ⟨⟨[(staging_mkdir, .fail EEXIST), (clone_call, r)], .undefined⟩, none⟩)))) := by
  unfold main
  by_cases hargc : argv.length < 4
  · simp [hargc, usage, sys, answered, usage_print]
  · simp only [hargc, if_false, sys, List.nil_append, neg_and_errno]
    have hge : 4 ≤ argv.length := by omega
    have hoff : clone_stack_offset = 0 := rfl
    generalize h1 : os [] (Call.mkdir (str "/tmp/container") 448) = r1
    cases r1 with
    | ok v =>
      simp only [Res.tolerated, Bool.not_true, Bool.false_eq_true, if_false,
        List.singleton_append, List.cons_append, List.nil_append]
      have h0 : ((0 : Nat) != EEXIST) = true := by decide
      simp only [h0, if_true]
      generalize h2 : os _ (Call.mount (str "tmpfs") (str "/tmp/container") (str "tmpfs") 0
        (some [])) = r2
      cases r2 with
      | fail e =>
        simp [Res.neg, err, answered, h1, h2, hge, staging_mkdir, tmpfs_mount, hargc]
      | ok v2 =>
        simp [Res.neg, answered, h1, h2, hge, staging_mkdir, tmpfs_mount, clone_call, hargc,
          hoff]
    | fail e =>
      by_cases he : e = EEXIST
      · subst he
        have h0 : (EEXIST != EEXIST) = false := by decide
        simp [Res.tolerated, h0, answered, h1, hge, staging_mkdir, clone_call, hargc, hoff]
      · have hb : (e == EEXIST) = false := by simp [he]
        simp [Res.tolerated, hb, err, answered, h1, hge, staging_mkdir, he, hargc]

/-- No run of `main` comes with a defined run of the child. -/
theorem main_no_child (os child_os : OS) (cwd : Option Str) (argv : List Str) :
    (main os child_os cwd argv).child = none := by
  rcases (main_shape os child_os cwd argv).2 with ⟨-, r, hm⟩ | ⟨-, ⟨e, -, hm⟩ | ⟨v, e, hm⟩ |
    ⟨v, v2, r, hm⟩ | ⟨r, hm⟩⟩ <;> rw [hm]

/-- The code of `main` after a successful `clone`: one `waitpid` on the child,
whose answer is ignored, then `EXIT_SUCCESS`. -/
theorem main_wait_ok (os : OS) (pid : Nat) (s : St) :
    main_wait os (.ok pid) s =
      ⟨s.trace ++ [(Call.waitpid pid 0, os s.trace (Call.waitpid pid 0))],
        .returned EXIT_SUCCESS⟩ := rfl

/-! ### The long working directory -/

/-- The long working directory has 4040 bytes. -/
theorem long_cwd_length : long_cwd.length = 4040 := by
  simp only [long_cwd, List.length_flatten, List.map_replicate, List.length_cons,
    List.length_replicate, List.sum_replicate, smul_eq_mul]

/-- The paths derived at the long working directory, none of them cut. -/
theorem long_paths :
    container_paths (some long_cwd) (make_container long_argv) =
      some { container_dir := str "/tmp/container/" ++ str "a"
             lowerdir := long_cwd ++ str "/images/" ++ str "img"
             upperdir := (str "/tmp/container/" ++ str "a") ++ str "/upper"
             workdir := (str "/tmp/container/" ++ str "a") ++ str "/work"
             merged := (str "/tmp/container/" ++ str "a") ++ str "/merged" } :=
  container_paths_fit (str "run") (str "a") (str "img") long_cwd [str "sh"]
    (by decide) (by decide) (by decide)
    (by
      have h1 : (str "/images/").length = 8 := by decide
      have h2 : (str "img").length = 3 := by decide
      simp only [List.length_append, long_cwd_length, h1, h2, PATH_MAX]
      omega)

/-- The option string at the long working directory: cut inside `,workdir=`. -/
theorem long_all_dir :
    all_dir { container_dir := str "/tmp/container/" ++ str "a"
              lowerdir := long_cwd ++ str "/images/" ++ str "img"
              upperdir := (str "/tmp/container/" ++ str "a") ++ str "/upper"
              workdir := (str "/tmp/container/" ++ str "a") ++ str "/work"
              merged := (str "/tmp/container/" ++ str "a") ++ str "/merged" } =
      str "lowerdir=" ++ (long_cwd ++ str "/images/" ++ str "img") ++ str ",upperdir=" ++
        ((str "/tmp/container/" ++ str "a") ++ str "/upper") ++ str ",wo" := by
  have hX : (str "lowerdir=" ++ (long_cwd ++ str "/images/" ++ str "img") ++ str ",upperdir=" ++
      ((str "/tmp/container/" ++ str "a") ++ str "/upper")).length = 4092 := by
    have h1 : (str "/images/").length = 8 := by decide
    have h2 : (str "img").length = 3 := by decide
    have h3 : (str "lowerdir=").length = 9 := by decide
    have h4 : (str ",upperdir=").length = 10 := by decide
    have h5 : (str "/tmp/container/").length = 15 := by decide
    have h6 : (str "a").length = 1 := by decide
    have h7 : (str "/upper").length = 6 := by decide
    simp only [List.length_append, long_cwd_length, h1, h2, h3, h4, h5, h6, h7]
  show List.take 4095 (str "lowerdir=" ++ (long_cwd ++ str "/images/" ++ str "img") ++
    str ",upperdir=" ++ ((str "/tmp/container/" ++ str "a") ++ str "/upper") ++
    str ",workdir=" ++ ((str "/tmp/container/" ++ str "a") ++ str "/work")) = _
  rw [List.append_assoc _ (str ",workdir=") _, List.take_append_eq_append_take,
    List.take_of_length_le (by rw [hX]; decide), hX]
  congr 1

/-! ### Path derivation -/

/-- C1: for an id of at most 15 bytes, an image name and a working directory
`cwd` (C strings, so without a zero byte) such that the lower directory fits in
`PATH_MAX - 1` bytes, `container_exec` derives
`containerDir = "/tmp/container/" ++ id`, `upperDir = containerDir ++ "/upper"`,
`workDir = containerDir ++ "/work"`, `mergedDir = containerDir ++ "/merged"` and
`lowerDir = cwd ++ "/images/" ++ image` from the container `main` stored from
`argv[1]` and `argv[2]`; the right-hand side mentions `id`, `image` and `cwd`
only.  The four staging paths always fit: they have at most 37 bytes. -/
theorem container_paths_derived (argv0 id image cwd : Str) (rest : List Str)
    (hid : id.length ≤ 15) (hid0 : 0 ∉ id) (himg0 : 0 ∉ image)
    (hfit : (cwd ++ str "/images/" ++ image).length ≤ PATH_MAX - 1) :
    container_paths (some cwd) (make_container (argv0 :: id :: image :: rest)) =
      some { container_dir := str "/tmp/container/" ++ id
             lowerdir := cwd ++ str "/images/" ++ image
             upperdir := (str "/tmp/container/" ++ id) ++ str "/upper"
             workdir := (str "/tmp/container/" ++ id) ++ str "/work"
             merged := (str "/tmp/container/" ++ id) ++ str "/merged" } :=
  container_paths_fit argv0 id image cwd rest hid hid0 himg0 hfit

/-- C1 at `run c1 alpine /bin/echo hello`, launched from `/home/u`. -/
theorem container_paths_derived_witness :
    container_paths (some (str "/home/u"))
        (make_container (str "run" :: str "c1" :: str "alpine" :: [str "/bin/echo", str "hello"])) =
      some { container_dir := str "/tmp/container/" ++ str "c1"
             lowerdir := str "/home/u" ++ str "/images/" ++ str "alpine"
             upperdir := (str "/tmp/container/" ++ str "c1") ++ str "/upper"
             workdir := (str "/tmp/container/" ++ str "c1") ++ str "/work"
             merged := (str "/tmp/container/" ++ str "c1") ++ str "/merged" } :=
  container_paths_derived (str "run") (str "c1") (str "alpine") (str "/home/u")
    [str "/bin/echo", str "hello"] (by decide) (by decide) (by decide) (by decide)

/-- C2, at a failing input: `run a img sh` launched from a working directory of
4040 bytes.  Every path is derived in full (`lowerDir` has 4051 bytes), the
overlay mount is issued with `all_dir` as its option string, and `all_dir` is
cut after 4095 bytes: it ends in `,wo` and the work directory is missing. -/
theorem overlay_options_truncated :
    ∃ p, container_paths (some long_cwd) (make_container long_argv) = some p ∧
      p.lowerdir = long_cwd ++ str "/images/img" ∧
      p.upperdir = str "/tmp/container/a/upper" ∧
      p.workdir = str "/tmp/container/a/work" ∧
      (∃ v, (Call.mount (str "overlay") p.merged (str "overlay") MS_RELATIME (some (all_dir p)),
          Res.ok v) ∈ (container_exec all_ok (some long_cwd) (make_container long_argv) 0).trace) ∧
      all_dir p =
        str "lowerdir=" ++ p.lowerdir ++ str ",upperdir=" ++ p.upperdir ++ str ",wo" ∧
      all_dir p ≠
        str "lowerdir=" ++ p.lowerdir ++ str ",upperdir=" ++ p.upperdir ++ str ",workdir=" ++
          p.workdir := by
  refine ⟨_, long_paths, ?_, ?_, ?_, ?_, long_all_dir, ?_⟩
  · show long_cwd ++ str "/images/" ++ str "img" = long_cwd ++ str "/images/img"
    rw [List.append_assoc]
    rfl
  · decide
  · decide
  · obtain ⟨v1, v2, v3, v4, v5, v6, v7, v8, h⟩ :=
      container_exec_all_ok all_ok (some long_cwd) (make_container long_argv) 0 _ long_paths
        (fun _ _ => ⟨0, rfl⟩)
    rw [h]
    exact ⟨v6, by simp⟩
  · rw [long_all_dir]
    intro h
    have hlen := congrArg List.length h
    have h8 : (str ",wo").length = 3 := by decide
    have h9 : (str ",workdir=").length = 9 := by decide
    simp only [List.length_append, h8, h9] at hlen
    omega

/-- C7, counterexample: the ids `a` and `a/upper` are distinct, yet the upper
directory derived from the first is the container directory derived from the
second. -/
theorem staging_paths_collide :
    str "a" ≠ str "a/upper" ∧
    (container_paths (some (str "/home/u"))
        (make_container [str "run", str "a", str "alpine", str "sh"])).map Paths.upperdir =
      some (str "/tmp/container/a/upper") ∧
    (container_paths (some (str "/home/u"))
        (make_container [str "run", str "a/upper", str "alpine", str "sh"])).map
        Paths.container_dir =
      some (str "/tmp/container/a/upper") := by
  decide

/-- C7, amended: for an id of at most 15 bytes the four staging paths are
pairwise distinct and `upperDir`, `workDir`, `mergedDir` are direct children of
`containerDir`; for two distinct such ids without a `/` byte (byte 47), no
staging path of one is a staging path of the other. -/
theorem staging_paths_distinct (cwd1 cwd2 : Option Str) (a1 a2 id1 id2 : Str)
    (rest1 rest2 : List Str) (p1 p2 : Paths)
    (hlen1 : id1.length ≤ 15) (hz1 : 0 ∉ id1)
    (hlen2 : id2.length ≤ 15) (hz2 : 0 ∉ id2)
    (hp1 : container_paths cwd1 (make_container (a1 :: id1 :: rest1)) = some p1)
    (hp2 : container_paths cwd2 (make_container (a2 :: id2 :: rest2)) = some p2) :
    (staging p1).Nodup ∧
    direct_child p1.upperdir p1.container_dir ∧
    direct_child p1.workdir p1.container_dir ∧
    direct_child p1.merged p1.container_dir ∧
    (47 ∉ id1 → 47 ∉ id2 → id1 ≠ id2 → ∀ x ∈ staging p1, x ∉ staging p2) := by
  have s1 := staging_of_paths cwd1 a1 id1 rest1 p1 hlen1 hz1 hp1
  have s2 := staging_of_paths cwd2 a2 id2 rest2 p2 hlen2 hz2 hp2
  obtain ⟨c1, u1, w1, m1⟩ := s1
  have e1 : (str "/upper").length = 6 := by decide
  have e2 : (str "/work").length = 5 := by decide
  have e3 : (str "/merged").length = 7 := by decide
  refine ⟨?_, ?_, ?_, ?_, ?_⟩
  · have ne : ∀ a b : Str, a.length ≠ b.length → a ≠ b := fun a b h hab => h (by rw [hab])
    simp only [staging, List.nodup_cons, List.mem_cons, List.mem_singleton, List.not_mem_nil,
      or_false, not_or, List.nodup_nil, not_false_eq_true, and_true]
    rw [c1, u1, w1, m1]
    refine ⟨⟨?_, ?_, ?_⟩, ⟨?_, ?_⟩, ?_⟩ <;>
      · apply ne
        simp only [List.length_append, e1, e2, e3]
        omega
  · exact ⟨str "upper", by decide, by decide, by rw [u1, c1]; rfl⟩
  · exact ⟨str "work", by decide, by decide, by rw [w1, c1]; rfl⟩
  · exact ⟨str "merged", by decide, by decide, by rw [m1, c1]; rfl⟩
  · intro hs1 hs2 hne x hx1 hx2
    obtain ⟨t1, ht1, hx1⟩ := staging_mem id1 p1 ⟨c1, u1, w1, m1⟩ x hx1
    obtain ⟨t2, ht2, hx2⟩ := staging_mem id2 p2 s2 x hx2
    have h := List.append_cancel_left (hx1.symm.trans hx2)
    have k := congrArg (List.takeWhile (fun b => b != 47)) h
    rw [takeWhile_stop 47 id1 t1 hs1 ht1, takeWhile_stop 47 id2 t2 hs2 ht2] at k
    exact hne k

/-- C7, amended, at the ids `c1` and `c2`. -/
theorem staging_paths_distinct_witness :
    (staging demo_paths).Nodup ∧
    direct_child demo_paths.upperdir demo_paths.container_dir ∧
    direct_child demo_paths.workdir demo_paths.container_dir ∧
    direct_child demo_paths.merged demo_paths.container_dir ∧
    ∀ x ∈ staging demo_paths,
      x ∉ staging ⟨str "/tmp/container/c2", str "/home/u/images/alpine",
        str "/tmp/container/c2/upper", str "/tmp/container/c2/work",
        str "/tmp/container/c2/merged"⟩ :=
  have h := staging_paths_distinct (some (str "/home/u")) (some (str "/home/u")) (str "run")
    (str "run") (str "c1") (str "c2") [str "alpine", str "sh"] [str "alpine", str "sh"]
    demo_paths ⟨str "/tmp/container/c2", str "/home/u/images/alpine",
      str "/tmp/container/c2/upper", str "/tmp/container/c2/work",
      str "/tmp/container/c2/merged"⟩
    (by decide) (by decide) (by decide) (by decide) (by decide) (by decide)
  ⟨h.1, h.2.1, h.2.2.1, h.2.2.2.1, h.2.2.2.2 (by decide) (by decide) (by decide)⟩

/-! ### Failures inside the child -/

/-- C3: on every run of `container_exec` in which the overlay mount is issued and
fails, the process terminates with status 1 and the run holds neither a
`change_root` nor an `execvp` call. -/
theorem overlay_failure_fatal (os : OS) (cwd : Option Str) (c : container_t) (e0 : Nat)
    (target : Str) (flags : Nat) (data : Option Str) (e : Nat)
    (hfail : (Call.mount (str "overlay") target (str "overlay") flags data, Res.fail e) ∈
      (container_exec os cwd c e0).trace) :
    (container_exec os cwd c e0).outcome = .exited 1 ∧
    ∀ ev ∈ (container_exec os cwd c e0).trace,
      ev.1.is_change_root = false ∧ ev.1.is_execvp = false := by
  cases hp : container_paths cwd c with
  | none =>
    rcases container_exec_undefined os cwd c e0 hp with ⟨e1, -, h⟩ | ⟨v, -, h⟩ <;>
      simp [h, private_mount, str_overlay_ne] at hfail
  | some p =>
    obtain ⟨-, rs, out, hrun, hshape⟩ := container_exec_shape os cwd c e0 p hp
    rw [hrun] at hfail ⊢
    rcases hshape with ⟨e1, rfl, rfl⟩ | ⟨v1, r2, rfl, -, rfl⟩ | ⟨v1, r2, r3, rfl, -, -, rfl⟩ |
      ⟨v1, r2, r3, r4, rfl, -, -, -, rfl⟩ | ⟨v1, r2, r3, r4, r5, rfl, -, -, -, -, rfl⟩ |
      ⟨v1, r2, r3, r4, r5, -, -, -, -, ⟨e6, rfl, rfl⟩ | ⟨v6, e7, rfl, rfl⟩ |
        ⟨v6, v7, e8, rfl, rfl⟩ | ⟨v6, v7, v8, rfl, rfl⟩⟩
    all_goals
      simp [exec_calls, private_mount, overlay_mount, str_overlay_ne, Call.is_change_root,
        Call.is_execvp] at hfail ⊢

/-- C3 on a system where the overlay mount fails with `ENOENT`. -/
theorem overlay_failure_fatal_witness :
    (Call.mount (str "overlay") (str "/tmp/container/c1/merged") (str "overlay") MS_RELATIME
        (some (all_dir demo_paths)), Res.fail 2) ∈
      (container_exec overlay_fails (some (str "/home/u")) (make_container demo_argv) 0).trace ∧
    (container_exec overlay_fails (some (str "/home/u")) (make_container demo_argv) 0).outcome =
      .exited 1 ∧
    ∀ ev ∈ (container_exec overlay_fails (some (str "/home/u")) (make_container demo_argv)
        0).trace,
      ev.1.is_change_root = false ∧ ev.1.is_execvp = false :=
  ⟨by decide,
    overlay_failure_fatal overlay_fails (some (str "/home/u")) (make_container demo_argv) 0
      (str "/tmp/container/c1/merged") MS_RELATIME (some (all_dir demo_paths)) 2 (by decide)⟩

/-- C8: on every run of `container_exec` in which `change_root` fails, the
process terminates with a non-zero status and the run holds no `execvp` call;
and whenever `execvp` is called, it is the last call of the run and the call
just before it is `change_root` on `mergedDir`, which succeeded. -/
theorem root_switch_failure_fatal (os : OS) (cwd : Option Str) (c : container_t) (e0 : Nat) :
    (∀ root e, (Call.change_root root, Res.fail e) ∈ (container_exec os cwd c e0).trace →
      (∃ n, n ≠ 0 ∧ (container_exec os cwd c e0).outcome = .exited n) ∧
      ∀ ev ∈ (container_exec os cwd c e0).trace, ev.1.is_execvp = false) ∧
    (∀ f a r, (Call.execvp f a, r) ∈ (container_exec os cwd c e0).trace →
      ∃ p pre v, container_paths cwd c = some p ∧
        (container_exec os cwd c e0).trace =
          pre ++ [(Call.change_root p.merged, .ok v), (Call.execvp f a, r)]) := by
  cases hp : container_paths cwd c with
  | none =>
    rcases container_exec_undefined os cwd c e0 hp with ⟨e1, -, h⟩ | ⟨v, -, h⟩ <;>
      simp [h, private_mount]
  | some p =>
    obtain ⟨-, rs, out, hrun, hshape⟩ := container_exec_shape os cwd c e0 p hp
    rw [hrun]
    rcases hshape with ⟨e1, rfl, rfl⟩ | ⟨v1, r2, rfl, -, rfl⟩ | ⟨v1, r2, r3, rfl, -, -, rfl⟩ |
      ⟨v1, r2, r3, r4, rfl, -, -, -, rfl⟩ | ⟨v1, r2, r3, r4, r5, rfl, -, -, -, -, rfl⟩ |
      ⟨v1, r2, r3, r4, r5, -, -, -, -, ⟨e6, rfl, rfl⟩ | ⟨v6, e7, rfl, rfl⟩ |
        ⟨v6, v7, e8, rfl, rfl⟩ | ⟨v6, v7, v8, rfl, rfl⟩⟩
    all_goals
      simp only [exec_calls, List.zip_cons_cons, List.zip_nil_right, List.zip_nil_left]
      refine ⟨by simp [private_mount, overlay_mount, Call.is_execvp], ?_⟩
      intro f a r hmem
      simp [private_mount, overlay_mount] at hmem
    all_goals
      obtain ⟨⟨rfl, rfl⟩, rfl⟩ := hmem
      exact ⟨p, [(private_mount, .ok v1), (Call.mkdir p.container_dir 448, r2),
        (Call.mkdir p.upperdir 448, r3), (Call.mkdir p.workdir 448, r4),
        (Call.mkdir p.merged 448, r5), (overlay_mount p, .ok v6)], v7, rfl, rfl⟩

/-- C8 on a system where `change_root` fails. -/
theorem root_switch_failure_fatal_witness :
    (Call.change_root (str "/tmp/container/c1/merged"), Res.fail 22) ∈
      (container_exec root_fails (some (str "/home/u")) (make_container demo_argv) 0).trace ∧
    (∃ n, n ≠ 0 ∧
      (container_exec root_fails (some (str "/home/u")) (make_container demo_argv) 0).outcome =
        .exited n) ∧
    ∀ ev ∈ (container_exec root_fails (some (str "/home/u")) (make_container demo_argv) 0).trace,
      ev.1.is_execvp = false :=
  ⟨by decide,
    (root_switch_failure_fatal root_fails (some (str "/home/u")) (make_container demo_argv)
      0).1 (str "/tmp/container/c1/merged") 22 (by decide)⟩

/-! ### The host driver -/

/-- C5, counterexample: at `run c1 alpine /bin/nosuch` the command does not
exist, `execvp` fails and `container_exec` terminates the isolated process with
status 1.  The run of `main` at this input has no exit status: it is undefined
from the `clone` call on.  The code of `main` that follows a successful `clone`
ends with exit status 0, not with a non-zero one. -/
theorem host_status_ignores_child :
    ((container_exec exec_fails (some (str "/home/u")) (make_container missing_argv)
        0).trace.getLast?,
      (container_exec exec_fails (some (str "/home/u")) (make_container missing_argv)
        0).outcome) =
      (some (Call.execvp (some (str "/bin/nosuch")) [str "/bin/nosuch"], Res.fail 2),
        Outcome.exited 1) ∧
    (main all_ok exec_fails (some (str "/home/u")) missing_argv).host =
      ⟨[(staging_mkdir, .ok 0), (tmpfs_mount, .ok 0), (clone_call, .ok 0)], .undefined⟩ ∧
    (main all_ok exec_fails (some (str "/home/u")) missing_argv).host.outcome.status = none ∧
    (main_wait all_ok (.ok 0)
        ⟨0, [(staging_mkdir, .ok 0), (tmpfs_mount, .ok 0), (clone_call, .ok 0)]⟩) =
      ⟨[(staging_mkdir, .ok 0), (tmpfs_mount, .ok 0), (clone_call, .ok 0),
        (Call.waitpid 0 0, .ok 0)], .returned EXIT_SUCCESS⟩ ∧
    (main_wait all_ok (.ok 0)
        ⟨0, [(staging_mkdir, .ok 0), (tmpfs_mount, .ok 0), (clone_call, .ok 0)]⟩).outcome.status =
      some 0 := by
  decide

/-- C5, amended: on every run of `container_exec` in which `execvp` fails, the
isolated process terminates with status 1.  The code of `main` that follows a
successful `clone` (lines 170-175) does not report it: from every state and for
every pid it issues `waitpid(pid, NULL, 0)`, ignores the answer and returns
`EXIT_SUCCESS`, exit status 0. -/
theorem command_failure (os child_os : OS) (cwd : Option Str) (c : container_t) (e0 : Nat)
    (f : Option Str) (a : List Str) (e : Nat) (pid : Nat) (s : St)
    (hexec : (Call.execvp f a, Res.fail e) ∈ (container_exec child_os cwd c e0).trace) :
    (container_exec child_os cwd c e0).outcome = .exited 1 ∧
    main_wait os (.ok pid) s =
      ⟨s.trace ++ [(Call.waitpid pid 0, os s.trace (Call.waitpid pid 0))],
        .returned EXIT_SUCCESS⟩ ∧
    (main_wait os (.ok pid) s).outcome.status = some 0 :=
  ⟨execvp_failure_exit child_os cwd c e0 f a e hexec, main_wait_ok os pid s, rfl⟩

/-- C5, amended, at a command that does not exist. -/
theorem command_failure_witness :
    (Call.execvp (some (str "/bin/nosuch")) [str "/bin/nosuch"], Res.fail 2) ∈
      (container_exec exec_fails (some (str "/home/u")) (make_container missing_argv)
        0).trace ∧
    (container_exec exec_fails (some (str "/home/u")) (make_container missing_argv)
      0).outcome = .exited 1 ∧
    main_wait all_ok (.ok 7) ⟨0, [(clone_call, .ok 7)]⟩ =
      ⟨[(clone_call, .ok 7)] ++ [(Call.waitpid 7 0, all_ok [(clone_call, .ok 7)]
        (Call.waitpid 7 0))], .returned EXIT_SUCCESS⟩ ∧
    (main_wait all_ok (.ok 7) ⟨0, [(clone_call, .ok 7)]⟩).outcome.status = some 0 :=
  ⟨by decide,
    command_failure all_ok exec_fails (some (str "/home/u")) (make_container missing_argv) 0
      (some (str "/bin/nosuch")) [str "/bin/nosuch"] 2 7 ⟨0, [(clone_call, .ok 7)]⟩
      (by decide)⟩

/-- C10, at a failing input: `run c1 alpine /bin/echo hello` on a system where
every call succeeds.  `main` hands `clone` a stack address with no byte of
`child_stack` below it; its run is undefined from that call on, and no run of
the child on the container of `argv` is guaranteed. -/
theorem launch_stack_undefined :
    clone_stack_offset = 0 ∧
    main all_ok all_ok (some (str "/home/u")) demo_argv =
      ⟨⟨[(Call.mkdir (str "/tmp/container") 0o700, .ok 0),
          (Call.mount (str "tmpfs") (str "/tmp/container") (str "tmpfs") 0 (some []), .ok 0),
          (Call.clone 0 (SIGCHLD ||| CLONE_NEWNS ||| CLONE_NEWPID), .ok 0)],
        .undefined⟩, none⟩ := by
  decide

/-- C6: with `argc < 4`, `main` prints the usage line for `argv[0]` and exits
with `EXIT_FAILURE`; this `printf` is its only call, so no `mkdir`, `mount`,
`clone` or `waitpid` is issued and no child exists.  With `argc >= 4` neither
`main` nor the child it may create prints the usage line, and no run of
`container_exec` does. -/
theorem usage_error (os child_os : OS) (cwd : Option Str) (argv : List Str) :
    (argv.length < 4 →
      main os child_os cwd argv =
        ⟨⟨[(Call.printf (str "Usage: %s [ID] [IMAGE] [CMD]...\n") [argv.head?],
            os [] (Call.printf (str "Usage: %s [ID] [IMAGE] [CMD]...\n") [argv.head?]))],
          .exited EXIT_FAILURE⟩, none⟩ ∧
      ∀ ev ∈ (main os child_os cwd argv).host.trace,
        ev.1.is_mkdir = false ∧ ev.1.is_mount = false ∧ ev.1.is_clone = false ∧
        ev.1.is_waitpid = false) ∧
    (4 ≤ argv.length →
      (∀ ev ∈ (main os child_os cwd argv).host.trace, ev.1.is_printf = false) ∧
      (∀ run, (main os child_os cwd argv).child = some run →
        ∀ ev ∈ run.trace, ev.1.is_printf = false) ∧
      ∀ c e0, ∀ ev ∈ (container_exec child_os cwd c e0).trace, ev.1.is_printf = false) := by
  constructor
  · intro hlt
    have hm : main os child_os cwd argv =
        ⟨⟨[(Call.printf (str "Usage: %s [ID] [IMAGE] [CMD]...\n") [argv.head?],
            os [] (Call.printf (str "Usage: %s [ID] [IMAGE] [CMD]...\n") [argv.head?]))],
          .exited EXIT_FAILURE⟩, none⟩ := by
      unfold main
      simp [hlt, usage, sys]
    rw [hm]
    exact ⟨rfl, by simp [Call.is_mkdir, Call.is_mount, Call.is_clone, Call.is_waitpid]⟩
  · intro hge
    refine ⟨?_, ?_, ?_⟩
    · rcases (main_shape os child_os cwd argv).2 with ⟨hlt, -⟩ | ⟨-, ⟨e, -, hm⟩ | ⟨v, e, hm⟩ |
        ⟨v, v2, r, hm⟩ | ⟨r, hm⟩⟩
      · omega
      all_goals
        rw [hm]
        simp [staging_mkdir, tmpfs_mount, clone_call, Call.is_printf]
    · intro run hrun
      rw [main_no_child] at hrun
      cases hrun
    · intro c e0 ev hev
      exact (container_exec_no_host_calls child_os cwd c e0 ev hev).1

/-- C6 at the two-entry argument vector `run c1`. -/
theorem usage_error_witness :
    main all_ok all_ok (some (str "/home/u")) [str "run", str "c1"] =
      ⟨⟨[(Call.printf (str "Usage: %s [ID] [IMAGE] [CMD]...\n") [some (str "run")],
          Res.ok 0)], .exited EXIT_FAILURE⟩, none⟩ ∧
    ∀ ev ∈ (main all_ok all_ok (some (str "/home/u")) [str "run", str "c1"]).host.trace,
      ev.1.is_mkdir = false ∧ ev.1.is_mount = false ∧ ev.1.is_clone = false ∧
      ev.1.is_waitpid = false :=
  (usage_error all_ok all_ok (some (str "/home/u")) [str "run", str "c1"]).1 (by decide)

/-- C9: in `main` with `argc >= 4`.  If `mkdir("/tmp/container", 0700)` succeeds,
the next call is the `tmpfs` mount on `/tmp/container`, and when that mount
fails `main` exits with status 1 without a `clone`.  If the `mkdir` fails with
`EEXIST`, `main` issues no mount and its next call is `clone`.  If the `mkdir`
fails with another error, it is the only call and `main` exits with status 1.
The `tmpfs` mount is issued if and only if the `mkdir` succeeded. -/
theorem staging_root_setup (os child_os : OS) (cwd : Option Str) (argv : List Str)
    (hargc : 4 ≤ argv.length) :
    (∀ v, os [] staging_mkdir = .ok v →
      (∃ r, (main os child_os cwd argv).host.trace.take 2 =
        [(staging_mkdir, .ok v), (tmpfs_mount, r)]) ∧
      (∀ e, os [(staging_mkdir, .ok v)] tmpfs_mount = .fail e →
        main os child_os cwd argv =
          ⟨⟨[(staging_mkdir, .ok v), (tmpfs_mount, .fail e)], .exited 1⟩, none⟩)) ∧
    (os [] staging_mkdir = .fail EEXIST →
      (∀ ev ∈ (main os child_os cwd argv).host.trace, ev.1.is_mount = false) ∧
      ∃ r, (main os child_os cwd argv).host.trace.take 2 =
        [(staging_mkdir, .fail EEXIST), (clone_call, r)]) ∧
    (∀ e, os [] staging_mkdir = .fail e → e ≠ EEXIST →
      main os child_os cwd argv = ⟨⟨[(staging_mkdir, .fail e)], .exited 1⟩, none⟩) ∧
    ((∃ r, (tmpfs_mount, r) ∈ (main os child_os cwd argv).host.trace) ↔
      ∃ v, os [] staging_mkdir = .ok v) := by
  obtain ⟨hans, hshape⟩ := main_shape os child_os cwd argv
  have hne : tmpfs_mount ≠ staging_mkdir := by simp [tmpfs_mount, staging_mkdir]
  have hne2 : tmpfs_mount ≠ clone_call := by simp [tmpfs_mount, clone_call]
  have hne3 : ∀ pid, tmpfs_mount ≠ Call.waitpid pid 0 := by simp [tmpfs_mount]
  have m1 : staging_mkdir.is_mount = false := rfl
  have m2 : clone_call.is_mount = false := rfl
  have m3 : ∀ pid, (Call.waitpid pid 0).is_mount = false := fun _ => rfl
  rcases hshape with ⟨hlt, -⟩ | ⟨-, ⟨e, he, hm⟩ | ⟨v, e, hm⟩ | ⟨v, v2, r, hm⟩ | ⟨r, hm⟩⟩
  · omega
  all_goals
    rw [hm] at hans ⊢
    clear hm
    simp only [answered, List.nil_append, List.cons_append] at hans
    obtain ⟨h1, hrest⟩ := hans
    simp [← h1, hne, hne2, hne3, m1, m2, m3] <;>
      first
      | exact he
      | (intro e1
         rw [← hrest.1]
         simp)

/-- C9 on a system where every call succeeds. -/
theorem staging_root_setup_witness :
    4 ≤ demo_argv.length ∧
    ((∃ r, (tmpfs_mount, r) ∈
        (main all_ok all_ok (some (str "/home/u")) demo_argv).host.trace) ↔
      ∃ v, all_ok [] staging_mkdir = .ok v) :=
  ⟨by decide,
    (staging_root_setup all_ok all_ok (some (str "/home/u")) demo_argv (by decide)).2.2.2⟩

end Container
